import Mathlib

/-!
Verification of the prompt-construction and parameter-selection pipeline of
the yumemachi-canvas kiosk application, together with its API endpoints.

Strings of the JavaScript/TypeScript source are modelled as Lean `String`
where only equality and lookup matter, and as `List Char` where substring
structure of assembled prompts matters.  Numeric parameters (JS numbers,
used only at exactly representable decimal values) are modelled as `ℚ`.
-/

/-- The separator used by `parts.join(',\n')` in the prompt builders. -/
def SEP : List Char := [',', '\n']

/-- Two consecutive separator sequences, the pattern `,\n,\n`. -/
def DOUBLE_SEP : List Char := [',', '\n', ',', '\n']

/-- `listStartsWith pat l` is true when `pat` is an initial segment of `l`. -/
def listStartsWith : List Char → List Char → Bool
  | [], _ => true
  | _ :: _, [] => false
  | p :: ps, c :: cs => if p = c then listStartsWith ps cs else false

/-- `hasDoubleSep l` is true when the four-character pattern `,\n,\n`
occurs somewhere in `l` (the "two consecutive join separators" pattern). -/
def hasDoubleSep : List Char → Bool
  | [] => false
  | c :: rest => listStartsWith DOUBLE_SEP (c :: rest) || hasDoubleSep rest

/-- JS `Array.prototype.join(sep)`: empty array gives the empty string,
a singleton gives its element, otherwise elements with `sep` in between. -/
def joinSep : List (List Char) → List Char
  | [] => []
  | [p] => p
  | p :: q :: rest => p ++ SEP ++ joinSep (q :: rest)

/-- The set of whitespace characters removed by JS `String.prototype.trim`
(ASCII whitespace plus NBSP; sufficient for the inputs considered here). -/
def isJsWhitespace (c : Char) : Bool :=
  c = ' ' || c = '\t' || c = '\n' || c = '\r' || c = '\x0b' || c = '\x0c' || c = ' '

/-- JS `String.prototype.trim` on the character-list model. -/
def jsTrim (l : List Char) : List Char :=
  ((l.dropWhile isJsWhitespace).reverse.dropWhile isJsWhitespace).reverse

/-- JS falsiness of an optional string: `undefined` and `''` are falsy. -/
def jsFalsy : Option String → Bool
  | none => true
  | some s => s = ""

/-- Association-list lookup modelling JS own-property access `obj[key]`. -/
def assocLookup {β : Type} : List (String × β) → String → Option β
  | [], _ => none
  | (k, v) :: rest, key => if key = k then some v else assocLookup rest key


/-!
## Prompt-assembly constants and builders

From `public/static/pages/image-display.js` (the variant with building
selection, auto-prompt and creative mode).
-/

/-- `SCENE_BASE`: the fixed scene-anchor clause. -/
def SCENE_BASE : List Char :=
  "In an existing station-front urban plaza and rotary".data

/-- `MODIFICATION_INSTRUCTION`: the fixed modification-scope clause. -/
def MODIFICATION_INSTRUCTION : List Char :=
  "Modify only the central flower bed and surrounding plaza area. Keep the existing station buildings, roads, and rotary unchanged.".data

/-- `STYLE_TAG`: fixed photorealistic style tag. -/
def STYLE_TAG : List Char :=
  "photorealistic, professional photography, high resolution".data

/-- `LIGHTING_TAG`: fixed natural-light tag. -/
def LIGHTING_TAG : List Char :=
  "natural lighting, daylight".data

/-- `COMPOSITION_TAG`: fixed composition tag. -/
def COMPOSITION_TAG : List Char :=
  "full body shot, wide angle".data

/-- `VISIBILITY_TAG`: the crowd-density / visibility clause (the source
builds it by concatenating five sentence literals). -/
def VISIBILITY_TAG : List Char :=
  ("Include AT LEAST 30 to 50 people as a mandatory and essential part of the scene. " ++
   "People are distributed across the entire plaza, visible in the foreground and midground. " ++
   "People are clearly visible, expressive, and in focus. " ++
   "Do not generate the scene without people. " ++
   "Do not generate scenes with sparse crowds or only a few people.").data

/-- `BUILDING_TYPE_NAMES`: building selection id → English building name. -/
def BUILDING_TYPE_NAMES : List (String × String) :=
  [("fountain", "fountain"),
   ("merry-go-round", "merry-go-round"),
   ("cafe-stand", "Stylish cafe stand"),
   ("other", "")]

/-- `getBuildingTypeName(buildingType, otherValue)`: the user-typed text for
the "other" selection, otherwise the mapped name with `''` fallback. -/
def getBuildingTypeName (buildingType otherValue : String) : String :=
  if buildingType = "other" then otherValue
  else
    match assocLookup BUILDING_TYPE_NAMES buildingType with
    | some n => n
    | none => ""

/-- The `buildingInstruction` ternary of `handleGenerate`:
``buildingTypeName ? `Install a ${buildingTypeName} in the central plaza area` : ''``. -/
def buildingInstruction (buildingTypeName : String) : List Char :=
  if buildingTypeName = "" then []
  else ("Install a " ++ buildingTypeName ++ " in the central plaza area").data

/-- `buildPrompt(freeText)` (auto-prompt OFF, no building argument): joins
the fixed fragments, a deliberate empty string `''`, and the free text with
`',\n'`.  No filtering of empty fragments is performed. -/
def buildPrompt (freeText : List Char) : List Char :=
  joinSep [SCENE_BASE, MODIFICATION_INSTRUCTION, STYLE_TAG, LIGHTING_TAG,
           COMPOSITION_TAG, VISIBILITY_TAG, [], freeText]

/-- `buildPromptWithBuilding(freeText, buildingInstruction)`: same fragment
list with the building instruction inserted, but run through
`.filter(Boolean)` (dropping empty strings) before `.join(',\n')`. -/
def buildPromptWithBuilding (freeText buildingInstr : List Char) : List Char :=
  joinSep (([SCENE_BASE, MODIFICATION_INSTRUCTION, buildingInstr, STYLE_TAG,
             LIGHTING_TAG, COMPOSITION_TAG, VISIBILITY_TAG, [], freeText]).filter
           fun s => !s.isEmpty)

/-- The auto-prompt re-wrapping in `handleGenerate`: the language-model
completion is appended as final fragment to the full scaffold, with
`.filter(Boolean)` and the `',\n'` join. -/
def autoAssemble (buildingTypeName : String) (completion : List Char) : List Char :=
  joinSep (([SCENE_BASE, MODIFICATION_INSTRUCTION, buildingInstruction buildingTypeName,
             STYLE_TAG, LIGHTING_TAG, COMPOSITION_TAG, VISIBILITY_TAG, [], completion]).filter
           fun s => !s.isEmpty)

/-- The creative-mode template literal, up to the `${buildingLine}`
interpolation point. -/
def CREATIVE_PROMPT_PRE : List Char :=
  ("Preserve all existing background elements exactly as they are, including station buildings, surrounding roads, sidewalks, trees, sky, lighting, perspective, and camera angle.\n" ++
   "Do not modify, replace, stylize, reinterpret, or regenerate any background structures or environment outside the central circular plaza area.\n" ++
   "\n" ++
   "Replace ONLY the central circular plaza area with a highly creative, non-traditional public-space installation.\n" ++
   "Do not assume or default to any conventional plaza, playground, or fountain design.").data

/-- The creative-mode template literal between `${buildingLine}` and the
trailing `User request:` label. -/
def CREATIVE_PROMPT_MID : List Char :=
  ("\n\n" ++
   "Install an imaginative, sculptural, or experiential centerpiece that may include water, light, landscape, art, or play elements, but is not limited to a fountain.\n" ++
   "Allow abstract, organic, or story-like forms that prioritize artistic expression and emotional impact over clear function or usability.\n" ++
   "\n" ++
   "Use low-height elements, gentle curves, and human-scale proportions suitable for families and children.\n" ++
   "The design should feel safe, approachable, and emotionally engaging rather than monumental or architectural.\n" ++
   "\n" ++
   "Maintain realistic materials, believable physics, and accurate scale.\n" ++
   "Ensure the installation integrates naturally with the existing plaza paving and surroundings.\n" ++
   "\n" ++
   "Do NOT include people unless strictly required for scale reference.\n" ++
   "If included, keep them minimal and visually subordinate.\n" ++
   "\n" ++
   "Maintain photorealistic quality with natural daylight, consistent shadows, and color temperature matching the original image.\n" ++
   "Ensure seamless blending at the boundary between the modified central plaza and the unchanged background.\n" ++
   "\n" ++
   "Output a single, cohesive, high-resolution photorealistic image.\n" ++
   "\n").data

/-- The trailing `User request: ` label of the creative template. -/
def USER_REQUEST_LABEL : List Char := "User request: ".data

/-- The `buildingLine` ternary of the creative branch:
``buildingTypeName ? `\nInstallation type: ${buildingTypeName}` : ''``. -/
def buildingLine (buildingTypeName : String) : List Char :=
  if buildingTypeName = "" then []
  else ("\nInstallation type: " ++ buildingTypeName).data

/-- The `creativePrompt` template literal of the creative branch of
`handleGenerate`, with its two interpolations. -/
def creativePrompt (freeText : List Char) (buildingTypeName : String) : List Char :=
  CREATIVE_PROMPT_PRE ++ buildingLine buildingTypeName ++ CREATIVE_PROMPT_MID ++
    USER_REQUEST_LABEL ++ freeText

/-- State of the auto-prompt checkbox (`disabled`, `checked` DOM flags). -/
structure CheckboxState where
  disabled : Bool
  checked : Bool
deriving DecidableEq

/-- `updateAutoPromptState` of `setupImageModeHandler`: creative mode
disables and unchecks the auto-prompt checkbox, any other mode re-enables
it leaving the checkmark alone. -/
def updateAutoPromptState (imageMode : String) (cb : CheckboxState) : CheckboxState :=
  if imageMode = "creative" then { disabled := true, checked := false }
  else { disabled := false, checked := cb.checked }

/-!
## Style/lighting parameter tables (earlier styled variant)
-/

/-- The `{ strength, steps, guidance }` record of the fal.ai call. -/
structure FalParams where
  strength : ℚ
  steps : ℚ
  guidance : ℚ
deriving DecidableEq

/-- `PARAM_TABLE`: style × lighting → fal.ai parameters. -/
def PARAM_TABLE : List (String × List (String × FalParams)) :=
  [("写真風",
    [("自然光", ⟨0.40, 35, 7.0⟩), ("柔らかい光", ⟨0.38, 35, 6.8⟩),
     ("スタジオライト", ⟨0.42, 38, 7.8⟩), ("ドラマチック", ⟨0.43, 38, 7.6⟩),
     ("逆光", ⟨0.40, 35, 6.6⟩)]),
   ("アニメ風",
    [("自然光", ⟨0.65, 45, 8.3⟩), ("柔らかい光", ⟨0.65, 45, 8.0⟩),
     ("スタジオライト", ⟨0.67, 48, 8.6⟩), ("ドラマチック", ⟨0.68, 48, 8.7⟩),
     ("逆光", ⟨0.66, 46, 8.1⟩)]),
   ("油絵風",
    [("自然光", ⟨0.70, 50, 8.2⟩), ("柔らかい光", ⟨0.70, 50, 8.0⟩),
     ("スタジオライト", ⟨0.72, 52, 8.5⟩), ("ドラマチック", ⟨0.73, 52, 8.6⟩),
     ("逆光", ⟨0.71, 50, 8.1⟩)]),
   ("水彩画風",
    [("自然光", ⟨0.75, 50, 7.8⟩), ("柔らかい光", ⟨0.75, 50, 7.6⟩),
     ("スタジオライト", ⟨0.77, 52, 8.2⟩), ("ドラマチック", ⟨0.78, 52, 8.3⟩),
     ("逆光", ⟨0.76, 50, 7.6⟩)]),
   ("デジタルアート",
    [("自然光", ⟨0.68, 48, 8.4⟩), ("柔らかい光", ⟨0.68, 48, 8.1⟩),
     ("スタジオライト", ⟨0.70, 50, 8.7⟩), ("ドラマチック", ⟨0.71, 50, 8.8⟩),
     ("逆光", ⟨0.69, 48, 8.1⟩)])]

/-- The property names of `Object.prototype`: bracket access `obj[key]` on
a JS object literal consults the prototype chain, so for these keys a miss
on the object's own properties still yields an inherited member — a
function, or `Object.prototype` itself for `__proto__` — and every one of
these inherited members is truthy, suppressing any `||` fallback. -/
def OBJECT_PROTOTYPE_KEYS : List String :=
  ["constructor", "hasOwnProperty", "isPrototypeOf", "propertyIsEnumerable",
   "toLocaleString", "toString", "valueOf", "__defineGetter__",
   "__defineSetter__", "__lookupGetter__", "__lookupSetter__", "__proto__"]

/-- Result of one JS bracket access `obj[key]` on an object literal:
an own property value, a truthy member inherited from `Object.prototype`
(identified by its name; never a table value), or `undefined`. -/
inductive JsGet (β : Type) where
  | own (v : β)
  | protoMember (name : String)
  | undef

/-- JS bracket access `obj[key]` on an object literal: own property first,
then the `Object.prototype` chain, then `undefined`. -/
def jsGet {β : Type} (l : List (String × β)) (key : String) : JsGet β :=
  match assocLookup l key with
  | some v => JsGet.own v
  | none => if key ∈ OBJECT_PROTOTYPE_KEYS then JsGet.protoMember key else JsGet.undef

/-- Result of the full two-level `getFalParams` pipeline.  `protoDerived
base key` is the residual value of `m[key] || m["自然光"]` where `m` is the
inherited `Object.prototype` member named `base` (some property of that
member — `undefined` for the Japanese lighting keys — never a table
entry).  `typeError` marks the branch where the style row expression is
`undefined` and the JS property access would throw; it is unreachable
because the `写真風` row exists. -/
inductive JsProp (β : Type) where
  | val (v : β)
  | protoMember (name : String)
  | protoDerived (base key : String)
  | undef
  | typeError

/-- Whether the pipeline produced an actual table record. -/
def JsProp.isVal {β : Type} : JsProp β → Bool
  | JsProp.val _ => true
  | _ => false

/-- The second line of `getFalParams`:
`styleParams[lighting] || styleParams["自然光"]` for a genuine row object.
A row is an object literal, so an inherited-member hit (truthy) suppresses
the fallback; only `undefined` falls back to the `自然光` column. -/
def rowLookup (row : List (String × FalParams)) (lighting : String) : JsGet FalParams :=
  match jsGet row lighting with
  | JsGet.own p => JsGet.own p
  | JsGet.protoMember n => JsGet.protoMember n
  | JsGet.undef => jsGet row "自然光"

/-- The style-row selection `PARAM_TABLE[style] || PARAM_TABLE["写真風"]`
of `getFalParams`: an inherited member (e.g. `PARAM_TABLE["toString"]`) is
truthy and suppresses the fallback; only `undefined` falls back to the
photorealistic row. -/
def styleRowOf (style : String) : JsGet (List (String × FalParams)) :=
  match jsGet PARAM_TABLE style with
  | JsGet.own row => JsGet.own row
  | JsGet.protoMember n => JsGet.protoMember n
  | JsGet.undef => jsGet PARAM_TABLE "写真風"

/-- `getFalParams(style, lighting)`: the two-level lookup with the
prototype chain modelled.  When the style step lands on an inherited
member, the lighting step is a property access on that member
(`protoDerived`); when it lands on `undefined` the JS access would throw
(`typeError`, unreachable since the `写真風` row exists). -/
def getFalParams (style lighting : String) : JsProp FalParams :=
  match styleRowOf style with
  | JsGet.own row =>
    match rowLookup row lighting with
    | JsGet.own p => JsProp.val p
    | JsGet.protoMember n => JsProp.protoMember n
    | JsGet.undef => JsProp.undef
  | JsGet.protoMember n => JsProp.protoDerived n lighting
  | JsGet.undef => JsProp.typeError

/-- `NEGATIVE_MAP`: style → negative prompt (each value is a
`[...].join(", ")` in the source). -/
def NEGATIVE_MAP : List (String × String) :=
  [("写真風", String.intercalate ", "
     ["cartoon, anime, illustration, painting, 3d render",
      "low quality, blurry, noise, jpeg artifacts",
      "distorted face, deformed hands, extra limbs, bad anatomy",
      "text, watermark, logo, signage, subtitles",
      "overexposed, underexposed, unnatural colors"]),
   ("アニメ風", String.intercalate ", "
     ["low quality, blurry, noise",
      "distorted face, deformed hands, extra limbs, bad anatomy",
      "text, watermark, logo"]),
   ("油絵風", String.intercalate ", "
     ["low quality, blurry, noise",
      "distorted face, deformed hands, extra limbs, bad anatomy",
      "text, watermark, logo"]),
   ("水彩画風", String.intercalate ", "
     ["low quality, blurry, noise",
      "muddy colors, dirty wash",
      "distorted face, deformed hands, extra limbs, bad anatomy",
      "text, watermark, logo"]),
   ("デジタルアート", String.intercalate ", "
     ["low quality, blurry, noise",
      "distorted face, deformed hands, extra limbs, bad anatomy",
      "text, watermark, logo"])]

/-- `getNegativePrompt(style)`: `NEGATIVE_MAP[style] || NEGATIVE_MAP["写真風"]`
with the prototype chain modelled: an inherited member (truthy) suppresses
the fallback; an own value falls back only when it is the empty string
(the falsy string — never the case in `NEGATIVE_MAP`), `undefined` always
falls back. -/
def getNegativePrompt (style : String) : JsGet String :=
  match jsGet NEGATIVE_MAP style with
  | JsGet.own v => if v = "" then jsGet NEGATIVE_MAP "写真風" else JsGet.own v
  | JsGet.protoMember n => JsGet.protoMember n
  | JsGet.undef => jsGet NEGATIVE_MAP "写真風"

/-- `applySafetyTweaks(style, lighting, params)`: copies the record; for
backlit (`逆光`) lighting caps guidance at `6.8` (photorealistic style) or
`8.2` (any other style); for dramatic (`ドラマチック`) lighting replaces
steps by `Math.max(30, steps - 2)`. -/
def applySafetyTweaks (style lighting : String) (params : FalParams) : FalParams :=
  { strength := params.strength
    steps := if lighting = "ドラマチック" then max 30 (params.steps - 2) else params.steps
    guidance :=
      if lighting = "逆光" then
        min params.guidance (if style = "写真風" then 6.8 else 8.2)
      else params.guidance }


/-!
## API endpoints

Request handlers, modelled as functions from the request body and from the
outcomes of the environment / external calls to the JSON response (or to
the vendor call they issue).
-/

/-- JSON response of `POST /api/translate-prompt`. -/
structure TranslateResponse where
  success : Bool
  status : Nat
  prompt : Option String
  error : Option String
deriving DecidableEq

/-- `POST /api/translate-prompt` (`translateApi.post`): validates the text,
checks the API key, forwards to the chat-completion API (`httpOk` is
`response.ok`, `content` is `data.choices?.[0]?.message?.content`) and
rejects an empty or missing completion after trimming. -/
def translatePromptPost (text : Option String) (apiKey : Option String)
    (httpOk : Bool) (openAIStatus : Nat) (content : Option String) : TranslateResponse :=
  if jsFalsy text || ((jsTrim (text.getD "").data).isEmpty) then
    ⟨false, 400, none, some "テキストは必須です"⟩
  else if jsFalsy apiKey then
    ⟨false, 500, none, some "OpenAI APIキーが設定されていません"⟩
  else if !httpOk then
    ⟨false, 500, none, some ("OpenAI API エラー: " ++ toString openAIStatus)⟩
  else
    match content with
    | none => ⟨false, 500, none, some "プロンプトの生成に失敗しました"⟩
    | some c =>
      if (jsTrim c.data).isEmpty then
        ⟨false, 500, none, some "プロンプトの生成に失敗しました"⟩
      else ⟨true, 200, some (String.mk (jsTrim c.data)), none⟩

/-- Client-side `generateAutoPrompt`: throws (`Except.error`) when the
translate endpoint reports failure, otherwise yields `result.prompt`. -/
def generateAutoPrompt (result : TranslateResponse) : Except String (Option String) :=
  if !result.success then
    Except.error (result.error.getD "自動プロンプト生成に失敗しました")
  else Except.ok result.prompt

/-- The image-generation request a run of `handleGenerate` issues. -/
inductive ApiCall where
  | generateCall (prompt : List Char)
  | creativeCall (prompt : List Char)
deriving DecidableEq

/-- The prompt-construction and dispatch logic of `handleGenerate`
(variant with building selection, auto-prompt and creative mode):
`Except.error` is the `catch` path — an alert is shown and no
`/api/generate` or `/api/creative` request is made. -/
def handleGenerateApiCall (imageMode : String) (autoChecked : Bool)
    (freeTextValue : List Char) (buildingTypeName : String)
    (translateResult : TranslateResponse) : Except String ApiCall :=
  if imageMode = "creative" then
    Except.ok (ApiCall.creativeCall (creativePrompt freeTextValue buildingTypeName))
  else if autoChecked then
    match generateAutoPrompt translateResult with
    | Except.error e => Except.error e
    | Except.ok p =>
      Except.ok (ApiCall.generateCall (autoAssemble buildingTypeName (p.getD "").data))
  else
    Except.ok (ApiCall.generateCall
      (buildPromptWithBuilding freeTextValue (buildingInstruction buildingTypeName)))

/-- JSON response of `POST /api/send-email`. -/
structure EmailResponse where
  success : Bool
  message : String
  debug : Option (Nat × String)
deriving DecidableEq

/-- `POST /api/send-email` (`emailApi.post`): `threw` is a raised exception
during processing, `apiKey` the `RESEND_API_KEY` binding, `resendOk` /
`resendStatus` / `resendErrorBody` the Resend HTTP outcome.  Every branch
reports `success: true`; a Resend error is surfaced only in `debug`. -/
def sendEmailPost (threw : Option String) (apiKey : Option String)
    (resendOk : Bool) (resendStatus : Nat) (resendErrorBody : String) : EmailResponse :=
  match threw with
  | some msg => ⟨true, "メール送信を試みました（エラー: " ++ msg ++ "）", none⟩
  | none =>
    match apiKey with
    | some _ =>
      if resendOk then ⟨true, "メールを送信しました", none⟩
      else ⟨true, "メール送信を試みました（Resendエラー）", some (resendStatus, resendErrorBody)⟩
    | none => ⟨true, "メール送信データを記録しました（APIキー未設定のためログのみ）", none⟩

/-- Outcome of the validation phase of the two image endpoints: an early
JSON error response with its HTTP status, or the call to the external
image-generation service with the accepted prompt. -/
inductive EndpointOutcome where
  | rejected (status : Nat) (error : String)
  | vendorCalled (prompt : String)
deriving DecidableEq

/-- `POST /api/generate` (`generateApi.post`) up to the fal.ai call:
rejects a falsy (`undefined` or `''`) prompt, image, mask, or a missing
`FAL_KEY`; any other prompt — whitespace included — is forwarded. -/
def generatePost (prompt imageData maskData falKey : Option String) : EndpointOutcome :=
  if jsFalsy prompt then EndpointOutcome.rejected 400 "プロンプトは必須です"
  else if jsFalsy imageData then EndpointOutcome.rejected 400 "元画像データは必須です"
  else if jsFalsy maskData then EndpointOutcome.rejected 400 "マスク画像データは必須です"
  else if jsFalsy falKey then EndpointOutcome.rejected 500 "APIキーが設定されていません"
  else EndpointOutcome.vendorCalled (prompt.getD "")

/-- `POST /api/creative` (`creativeApi.post`) up to the OpenAI images call:
rejects a falsy prompt or a prompt that trims to the empty string with a
400, then checks the API key, then forwards. -/
def creativePost (prompt apiKey : Option String) : EndpointOutcome :=
  if jsFalsy prompt || ((jsTrim (prompt.getD "").data).isEmpty) then
    EndpointOutcome.rejected 400 "プロンプトは必須です"
  else if jsFalsy apiKey then
    EndpointOutcome.rejected 500 "OpenAI APIキーが設定されていません"
  else EndpointOutcome.vendorCalled (prompt.getD "")


/-!
## General lemmas about the string and lookup machinery
-/

theorem listStartsWith_iff (pat l : List Char) :
    listStartsWith pat l = true ↔ ∃ t, l = pat ++ t := by
  induction pat generalizing l with
  | nil => simp [listStartsWith]
  | cons p ps ih =>
    cases l with
    | nil => simp [listStartsWith]
    | cons c cs =>
      by_cases h : p = c
      · subst h
        simp [listStartsWith, ih]
      · simp [listStartsWith, h, Ne.symm h]

theorem hasDoubleSep_iff (l : List Char) :
    hasDoubleSep l = true ↔ ∃ s t, l = s ++ DOUBLE_SEP ++ t := by
  induction l with
  | nil =>
    simp only [hasDoubleSep, Bool.false_eq_true, false_iff, not_exists]
    intro s t h
    simp [DOUBLE_SEP, eq_comm, List.append_eq_nil] at h
  | cons c rest ih =>
    simp only [hasDoubleSep, Bool.or_eq_true, ih, listStartsWith_iff]
    constructor
    · rintro (⟨t, ht⟩ | ⟨s, t, h⟩)
      · exact ⟨[], t, by simp [ht]⟩
      · exact ⟨c :: s, t, by simp [h]⟩
    · rintro ⟨s, t, h⟩
      cases s with
      | nil => exact Or.inl ⟨t, by simpa using h⟩
      | cons a s' =>
        simp only [List.cons_append, List.cons.injEq] at h
        exact Or.inr ⟨s', t, h.2⟩

theorem hasDoubleSep_append_of_right (xs ys : List Char)
    (h : hasDoubleSep ys = true) : hasDoubleSep (xs ++ ys) = true := by
  induction xs with
  | nil => simpa
  | cons c xs ih => simp [hasDoubleSep, ih]

theorem hasDoubleSep_of_nlFree (l : List Char) (h : '\n' ∉ l) :
    hasDoubleSep l = false := by
  induction l with
  | nil => rfl
  | cons c rest ih =>
    have h1 : '\n' ∉ rest := fun hm => h (List.mem_cons_of_mem _ hm)
    cases hb : listStartsWith DOUBLE_SEP (c :: rest) with
    | false => simp [hasDoubleSep, hb, ih h1]
    | true =>
      obtain ⟨t, ht⟩ := (listStartsWith_iff _ _).mp hb
      exact absurd (by rw [ht]; simp [DOUBLE_SEP]) h

theorem hasDoubleSep_append_cases (xs ys : List Char) (hnl : '\n' ∉ xs)
    (h : hasDoubleSep (xs ++ ys) = true) :
    (∃ t, ys = '\n' :: ',' :: '\n' :: t) ∨ hasDoubleSep ys = true := by
  induction xs with
  | nil => exact Or.inr (by simpa using h)
  | cons c xs ih =>
    have hnl' : '\n' ∉ xs := fun hm => hnl (List.mem_cons_of_mem _ hm)
    rw [List.cons_append] at h
    simp only [hasDoubleSep, Bool.or_eq_true] at h
    rcases h with hstart | hrest
    · obtain ⟨t, ht⟩ := (listStartsWith_iff _ _).mp hstart
      simp only [DOUBLE_SEP, List.cons_append, List.nil_append, List.cons.injEq] at ht
      obtain ⟨-, ht2⟩ := ht
      cases xs with
      | nil => exact Or.inl ⟨t, by simpa using ht2⟩
      | cons d xs' =>
        exfalso
        rw [List.cons_append] at ht2
        injection ht2 with hd hrest
        exact hnl (by simp [hd])
    · exact ih hnl' hrest

theorem joinSep_not_sep_start (q : List Char) (rest : List (List Char))
    (hq : q ≠ []) (hnl : '\n' ∉ q) (t : List Char) :
    joinSep (q :: rest) ≠ ',' :: '\n' :: t := by
  cases q with
  | nil => exact absurd rfl hq
  | cons c q' =>
    cases rest with
    | nil =>
      intro h
      cases q' with
      | nil => simp [joinSep] at h
      | cons d q'' =>
        simp only [joinSep, List.cons.injEq] at h
        exact hnl (by simp [h.2.1])
    | cons r rest' =>
      intro h
      cases q' with
      | nil =>
        simp only [joinSep, SEP, List.cons_append, List.nil_append,
          List.cons.injEq] at h
        exact absurd h.2.1 (by decide)
      | cons d q'' =>
        simp only [joinSep, SEP, List.cons_append, List.append_assoc,
          List.cons.injEq] at h
        exact hnl (by simp [h.2.1])

theorem joinSep_no_doubleSep (ps : List (List Char))
    (hne : ∀ p ∈ ps, p ≠ []) (hnl : ∀ p ∈ ps, '\n' ∉ p) :
    hasDoubleSep (joinSep ps) = false := by
  induction ps with
  | nil => rfl
  | cons p ps ih =>
    cases ps with
    | nil => exact hasDoubleSep_of_nlFree p (hnl p (by simp))
    | cons q rest =>
      by_contra hb
      have htrue : hasDoubleSep (joinSep (p :: q :: rest)) = true :=
        Bool.ne_false_iff.mp hb
      rw [show joinSep (p :: q :: rest) = p ++ (SEP ++ joinSep (q :: rest)) by
        simp [joinSep, List.append_assoc]] at htrue
      have hJ : hasDoubleSep (joinSep (q :: rest)) = false :=
        ih (fun x hx => hne x (by simp [hx])) (fun x hx => hnl x (by simp [hx]))
      rcases hasDoubleSep_append_cases p _ (hnl p (by simp)) htrue with ⟨t, ht⟩ | h2
      · simp [SEP] at ht
      · rw [show SEP ++ joinSep (q :: rest) = ',' :: '\n' :: joinSep (q :: rest)
          from rfl] at h2
        simp only [hasDoubleSep, Bool.or_eq_true] at h2
        rcases h2 with hs1 | hs2 | h3
        · obtain ⟨t, ht⟩ := (listStartsWith_iff _ _).mp hs1
          simp only [DOUBLE_SEP, List.cons_append, List.nil_append,
            List.cons.injEq, true_and] at ht
          exact joinSep_not_sep_start q rest (hne q (by simp)) (hnl q (by simp)) t ht
        · obtain ⟨t, ht⟩ := (listStartsWith_iff _ _).mp hs2
          simp [DOUBLE_SEP] at ht
        · exact absurd h3 (by simp [hJ])

theorem joinSep_contains_part (ps : List (List Char)) (p : List Char)
    (hp : p ∈ ps) : p <:+: joinSep ps := by
  induction ps with
  | nil => cases hp
  | cons a ps ih =>
    cases ps with
    | nil =>
      have : p = a := by simpa using hp
      exact this ▸ ⟨[], [], by simp [joinSep]⟩
    | cons b ps' =>
      rcases List.mem_cons.mp hp with h | hm
      · exact h ▸ ⟨[], SEP ++ joinSep (b :: ps'), by simp [joinSep, List.append_assoc]⟩
      · obtain ⟨s, t, hst⟩ := ih hm
        exact ⟨a ++ SEP ++ s, t, by
          rw [show joinSep (a :: b :: ps') = a ++ SEP ++ joinSep (b :: ps') from rfl,
            ← hst]
          simp [List.append_assoc]⟩

theorem joinSep_trailing (ps : List (List Char)) (p : List Char) :
    p <:+ joinSep (ps ++ [p]) := by
  induction ps with
  | nil => exact ⟨[], by simp [joinSep]⟩
  | cons a ps ih =>
    obtain ⟨s, hs⟩ := ih
    have hstep : joinSep (a :: (ps ++ [p])) = a ++ SEP ++ joinSep (ps ++ [p]) := by
      cases ps <;> rfl
    exact ⟨a ++ SEP ++ s, by rw [List.cons_append, hstep, ← hs]; simp [List.append_assoc]⟩

theorem assocLookup_eq_none {β : Type} (l : List (String × β)) (key : String)
    (h : key ∉ l.map Prod.fst) : assocLookup l key = none := by
  induction l with
  | nil => rfl
  | cons kv rest ih =>
    obtain ⟨k, v⟩ := kv
    simp only [List.map_cons, List.mem_cons] at h
    push_neg at h
    simp [assocLookup, h.1, ih h.2]

theorem assocLookup_mem_values {β : Type} (l : List (String × β)) (key : String)
    (v : β) (h : assocLookup l key = some v) : v ∈ l.map Prod.snd := by
  induction l with
  | nil => cases h
  | cons kv rest ih =>
    obtain ⟨k, w⟩ := kv
    by_cases hk : key = k
    · simp only [assocLookup, if_pos hk, Option.some.injEq] at h
      simp [← h]
    · simp only [assocLookup, if_neg hk] at h
      exact List.mem_cons_of_mem _ (ih h)

theorem bool_truthy_of_ne_nil (s : List Char) (h : s ≠ []) : (!s.isEmpty) = true := by
  cases s with
  | nil => exact absurd rfl h
  | cons a t => rfl

/-!
## Lemmas about the parameter tables and safety tweaks
-/

theorem rows_have_natural (row : List (String × FalParams))
    (hrow : row ∈ PARAM_TABLE.map Prod.snd) :
    (assocLookup row "自然光").isSome = true := by
  simp only [PARAM_TABLE, List.map_cons, List.map_nil, List.mem_cons,
    List.not_mem_nil, or_false] at hrow
  rcases hrow with h | h | h | h | h <;> subst h <;> rfl

theorem styleRowOf_own_of_not_proto (style : String)
    (hs : style ∉ OBJECT_PROTOTYPE_KEYS) :
    ∃ row, styleRowOf style = JsGet.own row ∧ row ∈ PARAM_TABLE.map Prod.snd := by
  unfold styleRowOf jsGet
  cases h : assocLookup PARAM_TABLE style with
  | some row => exact ⟨row, rfl, assocLookup_mem_values _ _ _ h⟩
  | none =>
    rw [if_neg hs]
    exact ⟨_, rfl, List.mem_map_of_mem Prod.snd (List.mem_cons_self _ _)⟩

theorem rowLookup_own_of_not_proto (row : List (String × FalParams))
    (hrow : row ∈ PARAM_TABLE.map Prod.snd) (lighting : String)
    (hl : lighting ∉ OBJECT_PROTOTYPE_KEYS) :
    ∃ p, rowLookup row lighting = JsGet.own p ∧ p ∈ row.map Prod.snd := by
  unfold rowLookup jsGet
  cases h : assocLookup row lighting with
  | some p => exact ⟨p, rfl, assocLookup_mem_values _ _ _ h⟩
  | none =>
    rw [if_neg hl]
    cases h2 : assocLookup row "自然光" with
    | some q => exact ⟨q, rfl, assocLookup_mem_values _ _ _ h2⟩
    | none =>
      have hnat := rows_have_natural row hrow
      rw [h2] at hnat
      exact absurd hnat (by simp)

theorem table_rows_in_range (row : List (String × FalParams))
    (hrow : row ∈ PARAM_TABLE.map Prod.snd) (p : FalParams)
    (hp : p ∈ row.map Prod.snd) :
    0 ≤ p.strength ∧ p.strength ≤ 1 ∧ 0 < p.steps ∧ 0 < p.guidance := by
  simp only [PARAM_TABLE, List.map_cons, List.map_nil, List.mem_cons,
    List.not_mem_nil, or_false] at hrow
  rcases hrow with h | h | h | h | h <;> subst h <;>
    simp only [List.map_cons, List.map_nil, List.mem_cons, List.not_mem_nil,
      or_false] at hp <;>
    rcases hp with h | h | h | h | h <;> subst h <;>
    exact ⟨by norm_num, by norm_num, by norm_num, by norm_num⟩

theorem applySafetyTweaks_preserves_range (style lighting : String) (p : FalParams)
    (h : 0 ≤ p.strength ∧ p.strength ≤ 1 ∧ 0 < p.steps ∧ 0 < p.guidance) :
    0 ≤ (applySafetyTweaks style lighting p).strength ∧
      (applySafetyTweaks style lighting p).strength ≤ 1 ∧
      0 < (applySafetyTweaks style lighting p).steps ∧
      0 < (applySafetyTweaks style lighting p).guidance := by
  obtain ⟨h1, h2, h3, h4⟩ := h
  refine ⟨h1, h2, ?_, ?_⟩
  · show 0 < (if lighting = "ドラマチック" then max 30 (p.steps - 2) else p.steps)
    by_cases hd : lighting = "ドラマチック"
    · rw [if_pos hd]
      have hm : (30 : ℚ) ≤ max 30 (p.steps - 2) := le_max_left _ _
      linarith
    · rw [if_neg hd]; exact h3
  · show 0 < (if lighting = "逆光" then
        min p.guidance (if style = "写真風" then 6.8 else 8.2) else p.guidance)
    by_cases hb : lighting = "逆光"
    · rw [if_pos hb]
      by_cases hs : style = "写真風"
      · rw [if_pos hs]; exact lt_min h4 (by norm_num)
      · rw [if_neg hs]; exact lt_min h4 (by norm_num)
    · rw [if_neg hb]; exact h4

/-!
## Claim theorems
-/

/-- C1, counterexample: `applySafetyTweaks` is not idempotent.  At
style `写真風`, lighting `ドラマチック` and the corresponding table record
`{strength 0.43, steps 38, guidance 7.6}`, one application yields steps 36
and a second application yields steps 34. -/
theorem applySafetyTweaks_not_idempotent_cex :
    applySafetyTweaks "写真風" "ドラマチック"
        (applySafetyTweaks "写真風" "ドラマチック" ⟨0.43, 38, 7.6⟩) ≠
      applySafetyTweaks "写真風" "ドラマチック" ⟨0.43, 38, 7.6⟩ := by
  intro h
  have e1 : (applySafetyTweaks "写真風" "ドラマチック"
      (applySafetyTweaks "写真風" "ドラマチック" ⟨0.43, 38, 7.6⟩)).steps = 34 := by
    norm_num [applySafetyTweaks]
  have e2 : (applySafetyTweaks "写真風" "ドラマチック" ⟨0.43, 38, 7.6⟩).steps = 36 := by
    norm_num [applySafetyTweaks]
  rw [h, e2] at e1
  norm_num at e1

/-- C1 (amended): the safety-tweak step is idempotent for every style and
every parameter record whenever the lighting is not `ドラマチック`: the
backlit guidance cap is a monotonic `min` and the remaining fields are
untouched.  (For `ドラマチック` the steps tweak subtracts a delta of 2
before flooring at 30, so double application is not idempotent in
general, as the counterexample shows.) -/
theorem applySafetyTweaks_idempotent_amended (style lighting : String)
    (p : FalParams) (h : lighting ≠ "ドラマチック") :
    applySafetyTweaks style lighting (applySafetyTweaks style lighting p) =
      applySafetyTweaks style lighting p := by
  by_cases hb : lighting = "逆光"
  · simp only [applySafetyTweaks, if_neg h, if_pos hb]
    congr 1
    rw [min_assoc, min_self]
  · simp only [applySafetyTweaks, if_neg h, if_neg hb]

/-- Witness for the amended C1 theorem at style `写真風`, lighting
`自然光` and the corresponding table record. -/
theorem applySafetyTweaks_idempotent_amended_witness :
    applySafetyTweaks "写真風" "自然光"
        (applySafetyTweaks "写真風" "自然光" ⟨0.40, 35, 7.0⟩) =
      applySafetyTweaks "写真風" "自然光" ⟨0.40, 35, 7.0⟩ :=
  applySafetyTweaks_idempotent_amended "写真風" "自然光" ⟨0.40, 35, 7.0⟩ (by decide)

/-- C6: after the safety tweak, backlit (`逆光`) lighting always yields a
guidance value at most the capped ceiling — `6.8` for the photorealistic
style `写真風` and `8.2` for every other style — for any input record,
whatever its guidance value. -/
theorem backlit_guidance_capped (style : String) (p : FalParams) :
    (applySafetyTweaks style "逆光" p).guidance ≤
      (if style = "写真風" then (6.8 : ℚ) else 8.2) := by
  have hg : (applySafetyTweaks style "逆光" p).guidance =
      min p.guidance (if style = "写真風" then (6.8 : ℚ) else 8.2) := rfl
  rw [hg]
  exact min_le_right _ _

/-- C7, counterexample: the documented fallback is not total over all
strings, because JS bracket access consults the prototype chain.  For the
lighting string `toString` — not present in any row — `getFalParams`
returns the inherited, truthy `Object.prototype.toString` member instead
of the row's natural-light column; for the style string `toString` the
whole lookup lands on a property of that inherited member (`undefined` in
JS), not on a photorealistic-row entry; and `getNegativePrompt "toString"`
likewise returns the inherited member, not the photorealistic fallback. -/
theorem lookup_fallback_proto_cex :
    getFalParams "写真風" "toString" = JsProp.protoMember "toString" ∧
      getFalParams "写真風" "toString" ≠ getFalParams "写真風" "自然光" ∧
      getFalParams "toString" "自然光" = JsProp.protoDerived "toString" "自然光" ∧
      getNegativePrompt "toString" = JsGet.protoMember "toString" := by
  refine ⟨rfl, ?_, rfl, rfl⟩
  intro h
  have e : JsProp.protoMember "toString" = JsProp.val (⟨0.40, 35, 7.0⟩ : FalParams) :=
    (show getFalParams "写真風" "toString" = JsProp.protoMember "toString" from
      rfl).symm.trans
      (h.trans
        (show getFalParams "写真風" "自然光" = JsProp.val ⟨0.40, 35, 7.0⟩ from rfl))
  exact JsProp.noConfusion e

/-- C7 (amended): the fallback policy holds for every style and lighting
string that is neither an own key of the table nor an `Object.prototype`
member name: an unknown style falls back to the photorealistic (`写真風`)
row, an unknown lighting falls back to the chosen row's natural-light
(`自然光`) column, and `getNegativePrompt` applies the same
fallback-to-photorealistic policy.  For `Object.prototype` member names
such as `toString` the inherited member is truthy, the `||` fallback does
not fire, and the lookup yields a non-table value (see the
counterexample). -/
theorem lookup_fallback_policy_amended (s1 l1 s2 l2 s3 : String)
    (row : List (String × FalParams))
    (h1 : s1 ∉ PARAM_TABLE.map Prod.fst) (h1p : s1 ∉ OBJECT_PROTOTYPE_KEYS)
    (hrow : styleRowOf s2 = JsGet.own row)
    (h2 : l2 ∉ row.map Prod.fst) (h2p : l2 ∉ OBJECT_PROTOTYPE_KEYS)
    (h3 : s3 ∉ NEGATIVE_MAP.map Prod.fst) (h3p : s3 ∉ OBJECT_PROTOTYPE_KEYS) :
    getFalParams s1 l1 = getFalParams "写真風" l1 ∧
      getFalParams s2 l2 = getFalParams s2 "自然光" ∧
      getNegativePrompt s3 = getNegativePrompt "写真風" := by
  refine ⟨?_, ?_, ?_⟩
  · have hr : styleRowOf s1 = styleRowOf "写真風" := by
      unfold styleRowOf jsGet
      rw [assocLookup_eq_none _ _ h1, if_neg h1p]
      rfl
    unfold getFalParams
    rw [hr]
  · have hl2 : rowLookup row l2 = jsGet row "自然光" := by
      unfold rowLookup jsGet
      rw [assocLookup_eq_none _ _ h2, if_neg h2p]
    have hnat : rowLookup row "自然光" = jsGet row "自然光" := by
      unfold rowLookup
      cases hx : jsGet row "自然光" <;> rfl
    unfold getFalParams
    simp only [hrow, hl2, hnat]
  · unfold getNegativePrompt jsGet
    rw [assocLookup_eq_none _ _ h3, if_neg h3p]
    rfl

/-- Witness for the amended C7 theorem at the unknown style `ミステリー風`
and the unknown lighting `月光` (neither an own key nor an
`Object.prototype` member name). -/
theorem lookup_fallback_policy_amended_witness :
    getFalParams "ミステリー風" "自然光" = getFalParams "写真風" "自然光" ∧
      getFalParams "写真風" "月光" = getFalParams "写真風" "自然光" ∧
      getNegativePrompt "ミステリー風" = getNegativePrompt "写真風" :=
  lookup_fallback_policy_amended "ミステリー風" "自然光" "写真風" "月光" "ミステリー風"
    [("自然光", ⟨0.40, 35, 7.0⟩), ("柔らかい光", ⟨0.38, 35, 6.8⟩),
     ("スタジオライト", ⟨0.42, 38, 7.8⟩), ("ドラマチック", ⟨0.43, 38, 7.6⟩),
     ("逆光", ⟨0.40, 35, 6.6⟩)]
    (by decide) (by decide) rfl (by decide) (by decide) (by decide) (by decide)

/-- C8, counterexample: the claimed invariant does not hold for every
style and lighting string — for prototype-chain keys the two-level lookup
yields an inherited `Object.prototype` member instead of a parameter
record (the spread in `applySafetyTweaks` then produces a record whose
numeric fields are `undefined` in JS), so no in-range record is produced
at lighting `toString` or at style `toString`. -/
theorem params_invariant_proto_cex :
    (getFalParams "写真風" "toString").isVal = false ∧
      (getFalParams "toString" "自然光").isVal = false :=
  ⟨rfl, rfl⟩

/-- C8 (amended): for every style string and every lighting string that is
not an `Object.prototype` member name, the two-level lookup yields an
actual table record and, after `applySafetyTweaks`, that record satisfies
the vendor-range invariant: strength lies in `[0,1]` and steps and
guidance are positive. -/
theorem params_vendor_range_invariant_amended (style lighting : String)
    (hs : style ∉ OBJECT_PROTOTYPE_KEYS) (hl : lighting ∉ OBJECT_PROTOTYPE_KEYS) :
    ∃ p : FalParams, getFalParams style lighting = JsProp.val p ∧
      0 ≤ (applySafetyTweaks style lighting p).strength ∧
      (applySafetyTweaks style lighting p).strength ≤ 1 ∧
      0 < (applySafetyTweaks style lighting p).steps ∧
      0 < (applySafetyTweaks style lighting p).guidance := by
  obtain ⟨row, hrowEq, hrowMem⟩ := styleRowOf_own_of_not_proto style hs
  obtain ⟨p, hpEq, hpMem⟩ := rowLookup_own_of_not_proto row hrowMem lighting hl
  refine ⟨p, ?_, applySafetyTweaks_preserves_range style lighting p
    (table_rows_in_range row hrowMem p hpMem)⟩
  unfold getFalParams
  simp only [hrowEq, hpEq]

/-- Witness for the amended C8 theorem at style `写真風`, lighting `自然光`. -/
theorem params_vendor_range_invariant_amended_witness :
    ∃ p : FalParams, getFalParams "写真風" "自然光" = JsProp.val p ∧
      0 ≤ (applySafetyTweaks "写真風" "自然光" p).strength ∧
      (applySafetyTweaks "写真風" "自然光" p).strength ≤ 1 ∧
      0 < (applySafetyTweaks "写真風" "自然光" p).steps ∧
      0 < (applySafetyTweaks "写真風" "自然光" p).guidance :=
  params_vendor_range_invariant_amended "写真風" "自然光" (by decide) (by decide)

/-- C9: the email-send endpoint reports `success: true` on every branch —
Resend success, Resend HTTP error (details only in `debug`), missing API
key, and a thrown exception. -/
theorem send_email_always_success (threw apiKey : Option String)
    (resendOk : Bool) (resendStatus : Nat) (resendErrorBody : String) :
    (sendEmailPost threw apiKey resendOk resendStatus resendErrorBody).success = true := by
  cases threw <;> cases apiKey <;> cases resendOk <;> rfl

set_option maxRecDepth 8192 in
/-- C2, counterexample: the assembled prompt can contain two consecutive
join separators.  `buildPrompt` keeps its deliberate empty fragment as a
blank slot (no `.filter(Boolean)`), so its output contains `,\n,\n`; here
at the concrete free text `親子で遊べる噴水広場`. -/
theorem buildPrompt_double_sep_cex :
    hasDoubleSep (buildPrompt "親子で遊べる噴水広場".data) = true := by decide

/-- C2 (amended): `buildPromptWithBuilding` drops empty fragments before
joining, so (for fragments that contain no newline themselves) its output
never contains two consecutive separator sequences `,\n,\n`; `buildPrompt`
by contrast deliberately keeps one empty fragment as a blank-line slot, so
its output always contains `,\n,\n` just before the free text. -/
theorem prompt_join_double_sep_amended (f bi : List Char)
    (hf : '\n' ∉ f) (hb : '\n' ∉ bi) :
    hasDoubleSep (buildPromptWithBuilding f bi) = false ∧
      hasDoubleSep (buildPrompt f) = true := by
  constructor
  · apply joinSep_no_doubleSep
    · intro p hp
      have hpred := (List.mem_filter.mp hp).2
      intro hnil
      rw [hnil] at hpred
      simp at hpred
    · intro p hp
      have hmem := (List.mem_filter.mp hp).1
      simp only [List.mem_cons, List.not_mem_nil, or_false] at hmem
      rcases hmem with h | h | h | h | h | h | h | h | h <;> subst h
      · decide
      · decide
      · exact hb
      · decide
      · decide
      · decide
      · decide
      · decide
      · exact hf
  · refine (hasDoubleSep_iff _).mpr
      ⟨SCENE_BASE ++ SEP ++ MODIFICATION_INSTRUCTION ++ SEP ++ STYLE_TAG ++ SEP ++
        LIGHTING_TAG ++ SEP ++ COMPOSITION_TAG ++ SEP ++ VISIBILITY_TAG, f, ?_⟩
    simp [buildPrompt, joinSep, SEP, DOUBLE_SEP, List.append_assoc]

/-- Witness for the amended C2 theorem at concrete free text and the
fountain building instruction. -/
theorem prompt_join_double_sep_amended_witness :
    hasDoubleSep (buildPromptWithBuilding "親子で遊べる噴水広場".data
        (buildingInstruction "fountain")) = false ∧
      hasDoubleSep (buildPrompt "親子で遊べる噴水広場".data) = true :=
  prompt_join_double_sep_amended "親子で遊べる噴水広場".data
    (buildingInstruction "fountain") (by decide) (by decide)

set_option maxRecDepth 8192 in
/-- C3, counterexample: in creative mode the assembled prompt is NOT
independent of the building selection — with the same free text, the
`fountain` and `merry-go-round` selections yield different prompts (their
`Installation type:` lines differ). -/
theorem creative_prompt_building_dependent_cex :
    creativePrompt "にぎやかな広場".data (getBuildingTypeName "fountain" "") ≠
      creativePrompt "にぎやかな広場".data (getBuildingTypeName "merry-go-round" "") := by
  decide

/-- C3 (amended): selecting creative mode forces the auto-prompt toggle
unchecked and disabled, and the assembled request is the fixed
preserve-background / minimize-people template with the free text
appended as a trailing `User request:` clause — but with an
`Installation type:` line for the selected building name inserted when
that name is nonempty.  The prompt therefore depends on the building
selection exactly through the selected building name: two selections
mapping to the same name yield the same prompt. -/
theorem creative_mode_amended (f : List Char) (b1 o1 b2 o2 : String)
    (cb : CheckboxState)
    (h : getBuildingTypeName b1 o1 = getBuildingTypeName b2 o2) :
    (updateAutoPromptState "creative" cb).disabled = true ∧
      (updateAutoPromptState "creative" cb).checked = false ∧
      creativePrompt f (getBuildingTypeName b1 o1) =
        creativePrompt f (getBuildingTypeName b2 o2) ∧
      (USER_REQUEST_LABEL ++ f) <:+ creativePrompt f (getBuildingTypeName b1 o1) := by
  refine ⟨rfl, rfl, by rw [h], ?_⟩
  exact ⟨CREATIVE_PROMPT_PRE ++ buildingLine (getBuildingTypeName b1 o1) ++
    CREATIVE_PROMPT_MID, by simp [creativePrompt, List.append_assoc]⟩

/-- Witness for the amended C3 theorem: the `other` selection with typed
text `fountain` and the `fountain` selection map to the same building
name and yield the same creative prompt. -/
theorem creative_mode_amended_witness :
    (updateAutoPromptState "creative" ⟨false, true⟩).disabled = true ∧
      (updateAutoPromptState "creative" ⟨false, true⟩).checked = false ∧
      creativePrompt "にぎやかに".data (getBuildingTypeName "other" "fountain") =
        creativePrompt "にぎやかに".data (getBuildingTypeName "fountain" "") ∧
      (USER_REQUEST_LABEL ++ "にぎやかに".data) <:+
        creativePrompt "にぎやかに".data (getBuildingTypeName "other" "fountain") :=
  creative_mode_amended "にぎやかに".data "other" "fountain" "fountain" ""
    ⟨false, true⟩ (by decide)

/-- C4: with auto-prompt enabled, the language-model completion is
embedded into — never substituted for — the fixed structural scaffold:
for every nonempty completion, the reassembled prompt still contains the
scene-anchor clause, the modification-scope instruction, the
style/lighting/composition tags and the crowd-density/visibility clause,
and the completion appears as the trailing segment. -/
theorem auto_prompt_scaffold_preserved (bn : String) (c : List Char) (hc : c ≠ []) :
    SCENE_BASE <:+: autoAssemble bn c ∧
      MODIFICATION_INSTRUCTION <:+: autoAssemble bn c ∧
      STYLE_TAG <:+: autoAssemble bn c ∧
      LIGHTING_TAG <:+: autoAssemble bn c ∧
      COMPOSITION_TAG <:+: autoAssemble bn c ∧
      VISIBILITY_TAG <:+: autoAssemble bn c ∧
      c <:+ autoAssemble bn c := by
  have hpart : ∀ p : List Char,
      p ∈ [SCENE_BASE, MODIFICATION_INSTRUCTION, buildingInstruction bn, STYLE_TAG,
        LIGHTING_TAG, COMPOSITION_TAG, VISIBILITY_TAG, ([] : List Char), c] →
      (!p.isEmpty) = true → p <:+: autoAssemble bn c := by
    intro p hmem hpred
    exact joinSep_contains_part _ p (List.mem_filter.mpr ⟨hmem, hpred⟩)
  refine ⟨hpart _ (by simp) (by decide), hpart _ (by simp) (by decide),
    hpart _ (by simp) (by decide), hpart _ (by simp) (by decide),
    hpart _ (by simp) (by decide), hpart _ (by simp) (by decide), ?_⟩
  have hsplit : ([SCENE_BASE, MODIFICATION_INSTRUCTION, buildingInstruction bn,
      STYLE_TAG, LIGHTING_TAG, COMPOSITION_TAG, VISIBILITY_TAG, ([] : List Char),
      c]).filter (fun s => !s.isEmpty) =
      ([SCENE_BASE, MODIFICATION_INSTRUCTION, buildingInstruction bn, STYLE_TAG,
        LIGHTING_TAG, COMPOSITION_TAG, VISIBILITY_TAG]).filter
        (fun s => !s.isEmpty) ++ [c] := by
    rw [show [SCENE_BASE, MODIFICATION_INSTRUCTION, buildingInstruction bn,
        STYLE_TAG, LIGHTING_TAG, COMPOSITION_TAG, VISIBILITY_TAG, ([] : List Char),
        c] = [SCENE_BASE, MODIFICATION_INSTRUCTION, buildingInstruction bn,
        STYLE_TAG, LIGHTING_TAG, COMPOSITION_TAG, VISIBILITY_TAG] ++
        [([] : List Char), c] from rfl, List.filter_append]
    congr 1
    simp [List.filter, bool_truthy_of_ne_nil c hc]
  rw [show autoAssemble bn c = joinSep (([SCENE_BASE, MODIFICATION_INSTRUCTION,
    buildingInstruction bn, STYLE_TAG, LIGHTING_TAG, COMPOSITION_TAG,
    VISIBILITY_TAG, ([] : List Char), c]).filter (fun s => !s.isEmpty)) from rfl,
    hsplit]
  exact joinSep_trailing _ c

/-- Witness for C4 at the fountain building and a concrete completion. -/
theorem auto_prompt_scaffold_preserved_witness :
    SCENE_BASE <:+: autoAssemble "fountain" "Install a modern fountain.".data ∧
      MODIFICATION_INSTRUCTION <:+: autoAssemble "fountain" "Install a modern fountain.".data ∧
      STYLE_TAG <:+: autoAssemble "fountain" "Install a modern fountain.".data ∧
      LIGHTING_TAG <:+: autoAssemble "fountain" "Install a modern fountain.".data ∧
      COMPOSITION_TAG <:+: autoAssemble "fountain" "Install a modern fountain.".data ∧
      VISIBILITY_TAG <:+: autoAssemble "fountain" "Install a modern fountain.".data ∧
      "Install a modern fountain.".data <:+ autoAssemble "fountain" "Install a modern fountain.".data :=
  auto_prompt_scaffold_preserved "fountain" "Install a modern fountain.".data (by decide)

/-- C5: with auto-prompt enabled, an empty or missing completion aborts
the generation attempt before any image request: the translate endpoint
reports `success: false` for a completion that trims to nothing,
`generateAutoPrompt` throws on a non-success result, and `handleGenerate`
then takes its catch path (`Except.error`), issuing no `/api/generate` or
`/api/creative` call. -/
theorem auto_prompt_empty_completion_aborts
    (text apiKey : String) (status : Nat) (content : Option String)
    (mode : String) (autoChecked : Bool) (f : List Char) (bn : String)
    (r : TranslateResponse)
    (hc : content = none ∨ jsTrim ((content.getD "").data) = [])
    (hr : r.success = false) (hm : mode ≠ "creative") (ha : autoChecked = true) :
    (translatePromptPost (some text) (some apiKey) true status content).success = false ∧
      (∃ e, generateAutoPrompt r = Except.error e) ∧
      (∃ e, handleGenerateApiCall mode autoChecked f bn r = Except.error e) := by
  have hgen : generateAutoPrompt r =
      Except.error (r.error.getD "自動プロンプト生成に失敗しました") := by
    unfold generateAutoPrompt
    rw [hr]
    rfl
  refine ⟨?_, ⟨_, hgen⟩, ?_⟩
  · unfold translatePromptPost
    split
    · rfl
    · split
      · rfl
      · split
        · rfl
        · rcases hc with hnone | hempty
          · subst hnone; rfl
          · cases content with
            | none => rfl
            | some cc =>
              have hE : (jsTrim cc.data).isEmpty = true := by
                rw [show ((some cc).getD "") = cc from rfl] at hempty
                rw [hempty]; rfl
              simp only [hE]
              rfl
  · unfold handleGenerateApiCall
    rw [if_neg hm, if_pos ha, hgen]
    exact ⟨_, rfl⟩

/-- Witness for C5: a whitespace-only completion aborts the attempt. -/
theorem auto_prompt_empty_completion_aborts_witness :
    (translatePromptPost (some "にぎやかな広場") (some "k") true 200 (some "   ")).success = false ∧
      (∃ e, generateAutoPrompt
        (translatePromptPost (some "にぎやかな広場") (some "k") true 200 (some "   ")) =
          Except.error e) ∧
      (∃ e, handleGenerateApiCall "normal" true [] ""
        (translatePromptPost (some "にぎやかな広場") (some "k") true 200 (some "   ")) =
          Except.error e) :=
  auto_prompt_empty_completion_aborts "にぎやかな広場" "k" 200 (some "   ")
    "normal" true [] ""
    (translatePromptPost (some "にぎやかな広場") (some "k") true 200 (some "   "))
    (Or.inr (by decide)) rfl (by decide) rfl

/-- C10: the whitespace-only prompt `" "` is forwarded to the fal.ai
collaborator by `POST /api/generate` (whose validation only rejects a
falsy prompt) but rejected with a 400 by `POST /api/creative` (which trims
before checking emptiness). -/
theorem generate_creative_whitespace_divergence :
    generatePost (some " ") (some "imageData") (some "maskData") (some "falKey") =
        EndpointOutcome.vendorCalled " " ∧
      creativePost (some " ") (some "openaiKey") =
        EndpointOutcome.rejected 400 "プロンプトは必須です" :=
  ⟨rfl, rfl⟩
